import Mathlib

/-!
Verification of the Pyllas client against its specification.

The development shallowly embeds the Python sources:
  * `pyllas/sql.py`              — `infuse`, `Expr`
  * `pyllas/storage/paths.py`    — `Path`, `S3Path`
  * `pyllas/storage/s3.py`       — `S3Client.read_orc` and helpers
  * `pyllas/client.py`           — `Athena.__wait_query_complete`

Python strings are modelled as Lean `String`/`List Char`; the handful of
string primitives the code uses (`str.replace`, `str.removesuffix`,
`str.removeprefix`, `str.strip`, `str.join`) are re-implemented
structurally below so that every definition evaluates by kernel
reduction.
-/

namespace Pyllas

/-! ### Python string primitives -/

/-- Python `str.replace(pat, rep)`: left-to-right, non-overlapping, the
replacement text is not rescanned.  The first argument is fuel (the
length of the subject string suffices, since a non-empty pattern always
consumes at least one character). -/
def replaceCore : Nat → List Char → List Char → List Char → List Char
  | 0, _, _, s => s
  | _, _, _, [] => []
  | n + 1, pat, rep, c :: rest =>
    if pat ≠ [] ∧ pat.isPrefixOf (c :: rest) then
      rep ++ replaceCore n pat rep ((c :: rest).drop pat.length)
    else
      c :: replaceCore n pat rep rest

/-- Python `s.replace(pat, rep)` on `String`. -/
def pyReplace (s pat rep : String) : String :=
  String.mk (replaceCore s.data.length pat.data rep.data s.data)

/-- Python `s.removesuffix(suf)`: drops one occurrence of `suf` from the
end, if present. -/
def pyRemovesuffixL (s suf : List Char) : List Char :=
  if suf ≠ [] ∧ suf.isSuffixOf s then s.take (s.length - suf.length) else s

/-- Python `s.removeprefix(pre)`: drops one occurrence of `pre` from the
start, if present. -/
def pyRemoveprefixL (s pre : List Char) : List Char :=
  if pre ≠ [] ∧ pre.isPrefixOf s then s.drop pre.length else s

/-- Python `s.strip(c)` for a single strip character: removes every
occurrence of `c` from both ends. -/
def pyStripChar (s : List Char) (c : Char) : List Char :=
  ((s.dropWhile (· == c)).reverse.dropWhile (· == c)).reverse

/-- Python `sep.join(parts)`. -/
def joinSep (sep : String) : List String → String
  | [] => ""
  | [x] => x
  | x :: xs => x ++ sep ++ joinSep sep xs

/-! ### `pyllas/sql.py` -/

/-- A Python value passed in the `params` dict of `infuse`.  `expr` is
the `Expr` wrapper class of `pyllas/sql.py` (its `__str__` returns the
wrapped content unchanged); `int_` covers the "all other types are
stringified" branch for the integer parameters the code is used with. -/
inductive SqlValue where
  | str (s : String)
  | list (xs : List String)
  | int_ (n : Int)
  | expr (content : String)
deriving DecidableEq

/-- The rendering `infuse` applies to one parameter value: a `list`
becomes `','.join([f"'{val}'" for val in value])`, a `str` becomes
`f"'{value}'"`, anything else is `str(value)`. -/
def renderValue : SqlValue → String
  | .str s => "\x27" ++ s ++ "\x27"
  | .list xs => joinSep "," (xs.map (fun v => "\x27" ++ v ++ "\x27"))
  | .int_ n => toString n
  | .expr content => content

/-- `infuse(string, params)` from `pyllas/sql.py`: folds over the
parameter items in order, replacing every occurrence of the token
`"$\x7b" ++ key ++ "\x7d"` with the rendered value.  (For an empty
`params` the Python code returns the string unchanged, which the fold
does as well.) -/
def infuse (string : String) (params : List (String × SqlValue)) : String :=
  params.foldl
    (fun result kv => pyReplace result ("$\x7b" ++ kv.1 ++ "\x7d") (renderValue kv.2))
    string

/-! ### `pyllas/storage/paths.py` — `Path` -/

/-- The `Path` class: just a list of string parts. -/
structure Path where
  parts : List String
deriving DecidableEq

/-- `Path.__init__(path)`: starts with the given part when the string is
non-empty (Python truthiness of `path`), else with no parts. -/
def Path.ofString (path : String) : Path :=
  ⟨if path = "" then [] else [path]⟩

/-- `Path.resolve(prefix)` for a string argument: appends the new part
unconditionally. -/
def Path.resolve (p : Path) (part : String) : Path :=
  ⟨p.parts ++ [part]⟩

/-- `Path.as_str`: with more than one part, the first part loses one
trailing slash, the last part loses one leading slash, the middle parts
are fully stripped of slashes on both ends and dropped when empty; the
results are joined with `"/"`.  With zero or one part it is just
`'/'.join(parts)`. -/
def Path.as_str (p : Path) : String :=
  match p.parts with
  | [] => ""
  | [single] => single
  | first :: rest =>
    match rest.reverse with
    | [] => first
    | last :: midsRev =>
      let f := String.mk (pyRemovesuffixL first.data ['/'])
      let l := String.mk (pyRemoveprefixL last.data ['/'])
      let mids := (midsRev.reverse.map
          (fun m => String.mk (pyStripChar m.data '/'))).filter
          (fun m => 0 < m.length)
      joinSep "/" (f :: (mids ++ [l]))

/-! ### `pyllas/storage/paths.py` — `S3Path` -/

/-- One character of the regex class `[a-z\d.-]` (the `\d` of the
pattern is modelled as the ASCII digits, which covers every input the
code is used with). -/
def isBucketChar (c : Char) : Bool :=
  (('a' ≤ c) && (c ≤ 'z')) || c.isDigit || c == '.' || c == '-'

/-- Matching the tail of `S3Path.EXTRACT_PATTERN` after the
`s3a?://` literal: `(?P<bucket>[a-z\d.-]*)/?(?P<prefix>.*)` — a greedy
run of bucket characters, an optional single slash, then everything up
to the first newline.  Returns `(bucket, prefix-group)`. -/
def parseAfterScheme (ys : List Char) : List Char × List Char :=
  let bucket := ys.takeWhile isBucketChar
  let rest := ys.dropWhile isBucketChar
  let rest2 :=
    match rest with
    | '/' :: zs => zs
    | zs => zs
  (bucket, rest2.takeWhile (fun c => c != '\n'))

/-- Whether the string starts with the given literal characters
(recursing on the literal, so that a match against a partially known
string reduces). -/
def matchesLiteral : List Char → List Char → Bool
  | [], _ => true
  | p :: ps, s =>
    match s with
    | [] => false
    | c :: cs => p == c && matchesLiteral ps cs

/-- Attempt to match the pattern at the current position: the literal
`s3a://` or `s3://`, then the groups. -/
def tryMatchAt (s : List Char) : Option (List Char × List Char) :=
  if matchesLiteral ['s', '3', 'a', ':', '/', '/'] s then
    some (parseAfterScheme (s.drop 6))
  else if matchesLiteral ['s', '3', ':', '/', '/'] s then
    some (parseAfterScheme (s.drop 5))
  else
    none

/-- `re.search`: scan positions left to right, returning the match at
the first position where the pattern succeeds. -/
def s3Search : List Char → Option (List Char × List Char)
  | [] => none
  | c :: rest =>
    match tryMatchAt (c :: rest) with
    | some r => some r
    | none => s3Search rest

/-- The `S3Path` object: the raw path string plus the extracted
`bucket` and `prefix` groups. -/
structure S3Path where
  raw : String
  bucket : String
  prefix_ : String
deriving DecidableEq

/-- `S3Path.__init__(path)`: run the search; `None` models the
`ValueError` raised when the pattern does not match. -/
def S3Path.ofString (path : String) : Option S3Path :=
  match s3Search path.data with
  | none => none
  | some (b, p) => some ⟨path, String.mk b, String.mk p⟩

/-- A Python value that an `S3Path` may be compared against with `==`,
covering the other value types appearing in the code base. -/
inductive PyObj where
  | s3path (p : S3Path)
  | path (p : Path)
  | str (s : String)
  | int_ (n : Int)
deriving DecidableEq

/-- `S3Path.__eq__`: `type(other) is S3Path and self.bucket ==
other.bucket and self.prefix == other.prefix`. -/
def S3Path.eq (self : S3Path) : PyObj → Bool
  | .s3path o => self.bucket == o.bucket && self.prefix_ == o.prefix_
  | _ => false

/-! ### `pyllas/storage/s3.py` — `S3Client.read_orc`

The object store and the ORC decoder are external collaborators: a
result object is modelled by what decoding it yields — a table fragment
(`valid`) or a parse failure (`malformed`).  A table is a schema plus
rows. -/

/-- A decoded table: `pyarrow.Table` / the resulting `pandas`
DataFrame, abstracted to its column schema and row list. -/
structure Fragment where
  schema : List String
  rows : List (List String)
deriving DecidableEq

/-- One result object under the listed prefix, by its decode
behaviour. -/
inductive OrcObject where
  | valid (table : Fragment)
  | malformed
deriving DecidableEq

/-- The exceptions that can escape `read_orc`. -/
inductive FetchError where
  /-- `pyarrow` parse failure inside `_load_orc_table` (the spec's
  `DecodeError`). -/
  | decodeError
  /-- `AttributeError` from `progress.tick()` when `progress` is
  `None`. -/
  | attributeError
  /-- `ArrowInvalid` from `concat_tables` on zero tables. -/
  | concatEmpty
  /-- `ArrowInvalid` from `concat_tables` on inconsistent schemas. -/
  | schemaMismatch
  /-- `ValueError` from `ThreadPool(n)` with `n < 1`. -/
  | poolValueError
deriving DecidableEq

/-- `S3Client._load_orc_table`: reads the object and parses it as ORC;
a malformed container raises. -/
def decodeOrc : OrcObject → Except FetchError Fragment
  | .valid t => .ok t
  | .malformed => .error .decodeError

/-- `pyarrow.concat_tables`: raises on an empty table list, raises on a
schema mismatch, otherwise concatenates all rows under the schema of
the first table. -/
def concat_tables (ts : List Fragment) : Except FetchError Fragment :=
  match ts with
  | [] => .error .concatEmpty
  | t :: rest =>
    if rest.all (fun r => r.schema == t.schema) then
      .ok ⟨t.schema, (ts.map Fragment.rows).flatten⟩
    else
      .error .schemaMismatch

/-- The inner generator `run_sequentially`, as consumed in full by
`concat_tables`: for each listed object, decode it (a parse failure
propagates), then call `progress.tick()` — which raises
`AttributeError` when `progress` is `None` (the function's default). -/
def seqCollect : List OrcObject → Bool → Except FetchError (List Fragment)
  | [], _ => .ok []
  | o :: rest, progress =>
    match decodeOrc o with
    | .error e => .error e
    | .ok f =>
      if progress then
        match seqCollect rest progress with
        | .error e => .error e
        | .ok fs => .ok (f :: fs)
      else
        .error .attributeError

/-- The worker-pool collection of `run_concurrently`:
`pool.map_async(...)` preserves the input order of the listed objects,
and `feature.get()` re-raises a worker's decode failure.  The
`while progress and not feature.ready()` ticking loop only writes to
the progress bar and never affects the result, so it is not part of the
returned value; in particular a `None` progress bar is guarded by the
`progress and ...` short-circuit and raises nothing. -/
def parCollect : List OrcObject → Except FetchError (List Fragment)
  | [] => .ok []
  | o :: rest =>
    match decodeOrc o with
    | .error e => .error e
    | .ok f =>
      match parCollect rest with
      | .error e => .error e
      | .ok fs => .ok (f :: fs)

/-- The `n_jobs == 1` branch of `read_orc`: `tables` is the generator
object returned by `run_sequentially()`, which is truthy regardless of
its contents, so the final line always takes the
`concat_tables(tables).to_pandas()` branch — `concat_tables` consumes
the generator and then raises on zero tables. -/
def seqFetch (objs : List OrcObject) (progress : Bool) : Except FetchError Fragment :=
  match seqCollect objs progress with
  | .error e => .error e
  | .ok fs => concat_tables fs

/-- The `n_jobs != 1` branch of `read_orc`: `tables` is the list
returned by `run_concurrently`, which is truthy exactly when non-empty,
so an empty listing yields `pd.DataFrame()` — the schema-less empty
table. -/
def parFetch (objs : List OrcObject) : Except FetchError Fragment :=
  match parCollect objs with
  | .error e => .error e
  | .ok fs => if fs.isEmpty then .ok ⟨[], []⟩ else concat_tables fs

/-- `S3Client.read_orc(path, n_jobs, progress)`: the listed objects
stand for the listing of `path`; `cpuCount` is `os.cpu_count()`;
`progress` is whether a progress bar was passed (`False` = the `None`
default).  For `n_jobs != 1` the pool size is
`os.cpu_count() if n_jobs == -1 else n_jobs`, and `ThreadPool` raises
`ValueError` when that is below 1. -/
def read_orc (objs : List OrcObject) (n_jobs : Int) (cpuCount : Nat)
    (progress : Bool) : Except FetchError Fragment :=
  if n_jobs = 1 then
    seqFetch objs progress
  else
    let threads : Int := if n_jobs = -1 then (cpuCount : Int) else n_jobs
    if threads < 1 then .error .poolValueError
    else parFetch objs

/-! ### `pyllas/client.py` — `Athena.__wait_query_complete`

The remote service is scripted: each poll consumes the next entry of a
list, and an entry can instead deliver a `KeyboardInterrupt` raised
inside the `try` block while the call is blocked. -/

/-- The `State` field of a `GetQueryExecution` response. -/
inductive QueryState where
  | QUEUED
  | RUNNING
  | SUCCEEDED
  | CANCELLED
  | FAILED
deriving DecidableEq

/-- One `GetQueryExecution` response: the state and the
`StateChangeReason` the service attaches to it. -/
structure StatusResponse where
  state : QueryState
  stateChangeReason : String
deriving DecidableEq

/-- One scripted step of the poll loop: either the next status
response, or a `KeyboardInterrupt` delivered inside the `try` block. -/
inductive PollStep where
  | status (r : StatusResponse)
  | interrupt
deriving DecidableEq

/-- The observable actions of the poll loop, in order. -/
inductive PollEvent where
  /-- a `get_query_execution` request -/
  | statusCall
  /-- `time.sleep(ask_status_sec)` -/
  | sleep
  /-- `progress.tick()` -/
  | tick
  /-- `stop_query_execution` issued by `cancel_query` -/
  | cancelRequest
deriving DecidableEq

/-- How the wait ends. -/
inductive WaitOutcome where
  /-- `return response` on `SUCCEEDED` -/
  | success (response : StatusResponse)
  /-- a `ValueError` raised on `CANCELLED` / `FAILED` (only
  `KeyboardInterrupt` is caught, so it propagates) -/
  | valueError (message : String)
  /-- `exit(0)`: the process terminates with the given status code -/
  | processExit (code : Nat)
  /-- modelling artefact: the script ran out while the loop would have
  kept polling -/
  | scriptEnd
deriving DecidableEq

/-- The message of the `ValueError` raised on `CANCELLED`. -/
def cancelledMessage (reason : String) : String :=
  "Query was cancelled. The reason is " ++ reason

/-- The message of the `ValueError` raised on `FAILED`. -/
def failedMessage (reason : String) : String :=
  "Query was failed. The reason is " ++ reason

/-- `Athena.__wait_query_complete`, run against a script: per
iteration, one status call; on `QUEUED`/`RUNNING` the code sleeps
`ask_status_sec` and then ticks the progress bar and polls again; on
`SUCCEEDED` it returns the response; on `CANCELLED`/`FAILED` it raises
`ValueError` with the reason.  A `KeyboardInterrupt` is caught by the
`except` clause, which sends exactly one cancel request and then calls
`exit(0)`.  Returns the emitted events and the outcome. -/
def wait_query_complete : List PollStep → List PollEvent × WaitOutcome
  | [] => ([], .scriptEnd)
  | PollStep.interrupt :: _ => ([PollEvent.cancelRequest], .processExit 0)
  | PollStep.status r :: rest =>
    match r.state with
    | .QUEUED =>
      let p := wait_query_complete rest
      (PollEvent.statusCall :: PollEvent.sleep :: PollEvent.tick :: p.1, p.2)
    | .RUNNING =>
      let p := wait_query_complete rest
      (PollEvent.statusCall :: PollEvent.sleep :: PollEvent.tick :: p.1, p.2)
    | .SUCCEEDED => ([PollEvent.statusCall], .success r)
    | .CANCELLED =>
      ([PollEvent.statusCall], .valueError (cancelledMessage r.stateChangeReason))
    | .FAILED =>
      ([PollEvent.statusCall], .valueError (failedMessage r.stateChangeReason))

/-- The formalisation of "each non-terminal poll emits one tick before
sleeping": scanning the event trace from the start, no sleep occurs
before a tick has occurred. -/
def firstSleepAfterTick : List PollEvent → Bool
  | [] => true
  | PollEvent.tick :: _ => true
  | PollEvent.sleep :: _ => false
  | _ :: rest => firstSleepAfterTick rest

/-- Whether the wait hands a value back to its caller (as opposed to
raising or terminating the process). -/
def returnsToCaller : WaitOutcome → Bool
  | .success _ => true
  | _ => false

/-! ### Helper lemmas -/

/-- With a progress bar present, the sequential generator collects the
same fragment list, in the same order, as the worker pool (whose
`pool.map_async` preserves input order). -/
lemma seqCollect_true_eq_par (objs : List OrcObject) :
    seqCollect objs true = parCollect objs := by
  induction objs with
  | nil => rfl
  | cons o rest ih =>
    simp only [seqCollect, parCollect, if_true]
    cases decodeOrc o with
    | error e => rfl
    | ok f => rw [ih]

/-- The worker pool returns one fragment per listed object. -/
lemma parCollect_ok_length (objs : List OrcObject) (fs : List Fragment)
    (h : parCollect objs = .ok fs) : fs.length = objs.length := by
  induction objs generalizing fs with
  | nil =>
    simp only [parCollect] at h
    cases h
    rfl
  | cons o rest ih =>
    simp only [parCollect] at h
    cases hd : decodeOrc o with
    | error e => rw [hd] at h; cases h
    | ok f =>
      rw [hd] at h
      cases hr : parCollect rest with
      | error e => rw [hr] at h; cases h
      | ok fs' =>
        rw [hr] at h
        cases h
        simp [ih fs' hr]

/-- A malformed object among the listed ones fails the pool collection
with the decode error. -/
lemma parCollect_malformed (objs : List OrcObject)
    (h : OrcObject.malformed ∈ objs) : parCollect objs = .error .decodeError := by
  induction objs with
  | nil => cases h
  | cons o rest ih =>
    rcases List.mem_cons.mp h with ho | ho
    · subst ho; rfl
    · cases o with
      | malformed => rfl
      | valid t =>
        have hstep : parCollect (OrcObject.valid t :: rest)
            = match parCollect rest with
              | .error e => .error e
              | .ok fs => .ok (t :: fs) := rfl
        rw [hstep, ih ho]

/-- On a non-empty listing the sequential branch and the pool branch of
`read_orc` agree (when a progress bar is present): the generator's
truthiness quirk only matters for the empty listing. -/
lemma seqFetch_eq_parFetch (objs : List OrcObject) (hobjs : objs ≠ []) :
    seqFetch objs true = parFetch objs := by
  unfold seqFetch parFetch
  rw [seqCollect_true_eq_par]
  cases hp : parCollect objs with
  | error e => rfl
  | ok fs =>
    have hlen := parCollect_ok_length objs fs hp
    cases fs with
    | nil =>
      cases objs with
      | nil => exact absurd rfl hobjs
      | cons o rest => simp at hlen
    | cons f fs' => rfl

/-- For a valid job count and a non-empty listing, `read_orc` with a
progress bar computes the pool branch's result whatever the mode. -/
lemma read_orc_valid_par (objs : List OrcObject) (n : Int) (cpu : Nat)
    (hn : n = 1 ∨ n = -1 ∨ 1 < n) (hcpu : 1 ≤ cpu) (hobjs : objs ≠ []) :
    read_orc objs n cpu true = parFetch objs := by
  rcases hn with h1 | hm1 | hgt
  · subst h1
    simpa [read_orc] using seqFetch_eq_parFetch objs hobjs
  · subst hm1
    have hc : ¬ ((cpu : Int) < 1) := by omega
    simp [read_orc, hc]
  · have h1 : n ≠ 1 := by omega
    have h2 : n ≠ -1 := by omega
    have h3 : ¬ (n < 1) := by omega
    simp [read_orc, h1, h2, h3]

/-! ### Claims -/

/-- Claim C1 (code bug): for an empty object listing, `read_orc` is
claimed to return a valid schema-less empty table in both modes.  The
parallel branch does (its `tables` list is falsy when empty, so the
`pd.DataFrame()` arm runs), but the sequential branch binds `tables` to
the generator object returned by `run_sequentially()`, which is truthy
even when it will yield nothing, so `concat_tables` is invoked on zero
tables and raises — the empty-table arm is unreachable for
`n_jobs = 1`. -/
theorem read_orc_empty_listing :
    read_orc ([] : List OrcObject) 1 4 true = .error .concatEmpty
    ∧ read_orc ([] : List OrcObject) 2 4 true = .ok ⟨[], []⟩
    ∧ read_orc ([] : List OrcObject) (-1) 4 true = .ok ⟨[], []⟩ :=
  ⟨rfl, rfl, rfl⟩

/-- The scripted status sequence `[QUEUED, RUNNING, RUNNING, SUCCEEDED]`
of claim C2. -/
def scriptA : List PollStep :=
  [PollStep.status ⟨QueryState.QUEUED, ""⟩, PollStep.status ⟨QueryState.RUNNING, ""⟩,
   PollStep.status ⟨QueryState.RUNNING, ""⟩, PollStep.status ⟨QueryState.SUCCEEDED, ""⟩]

/-- The scripted status sequence `[RUNNING, CANCELLED]` of claim C2. -/
def scriptB : List PollStep :=
  [PollStep.status ⟨QueryState.RUNNING, ""⟩,
   PollStep.status ⟨QueryState.CANCELLED, "scripted reason"⟩]

/-- Claim C2 (confirmed): on `[QUEUED, RUNNING, RUNNING, SUCCEEDED]`
the poll loop issues exactly 4 status calls, sleeps exactly 3 times and
returns the final response; on `[RUNNING, CANCELLED]` it raises the
`ValueError` whose message carries the scripted `StateChangeReason`. -/
theorem wait_scripted_sequences :
    (wait_query_complete scriptA).1.count PollEvent.statusCall = 4
    ∧ (wait_query_complete scriptA).1.count PollEvent.sleep = 3
    ∧ (wait_query_complete scriptA).2 = WaitOutcome.success ⟨QueryState.SUCCEEDED, ""⟩
    ∧ (wait_query_complete scriptB).2
        = WaitOutcome.valueError (cancelledMessage "scripted reason") := by
  decide

/-- Claim C3, counterexample: the claim says an interrupt terminates
the wait "as a clean, non-exceptional return to the caller", but the
`except KeyboardInterrupt` handler ends with `exit(0)` — the process
terminates and control never returns to the caller. -/
theorem interrupt_returns_to_caller_cx :
    returnsToCaller (wait_query_complete [PollStep.interrupt]).2 = false := rfl

/-- Claim C3 (amended): for an interrupt delivered after any number of
non-terminal polls, the handler sends exactly one cancel request — the
final event, so no further status poll follows it — and terminates the
wait by exiting the process with status 0 (the interrupt is not
re-raised, but control does not return to the caller either). -/
theorem interrupt_single_cancel_exit (pres : List StatusResponse)
    (h : ∀ r ∈ pres, r.state = QueryState.QUEUED ∨ r.state = QueryState.RUNNING) :
    wait_query_complete (pres.map PollStep.status ++ [PollStep.interrupt])
      = ((pres.map fun _ => [PollEvent.statusCall, PollEvent.sleep, PollEvent.tick]).flatten
          ++ [PollEvent.cancelRequest],
         WaitOutcome.processExit 0) := by
  induction pres with
  | nil => rfl
  | cons r pres ih =>
    obtain ⟨st, reason⟩ := r
    have hr := h ⟨st, reason⟩ (List.mem_cons_self _ _)
    have hrest := fun x hx => h x (List.mem_cons_of_mem _ hx)
    have hw : wait_query_complete
          (((⟨st, reason⟩ : StatusResponse) :: pres).map PollStep.status ++ [PollStep.interrupt])
        = (PollEvent.statusCall :: PollEvent.sleep :: PollEvent.tick ::
            (wait_query_complete (pres.map PollStep.status ++ [PollStep.interrupt])).1,
           (wait_query_complete (pres.map PollStep.status ++ [PollStep.interrupt])).2) := by
      rcases hr with hq | hq <;>
        (have hst : st = _ := hq; subst hst; rfl)
    rw [hw, ih hrest]
    simp

/-- Witness for `interrupt_single_cancel_exit` at the concrete script
`[RUNNING, interrupt]`. -/
theorem interrupt_single_cancel_exit_witness :
    wait_query_complete
        (([⟨QueryState.RUNNING, ""⟩] : List StatusResponse).map PollStep.status
          ++ [PollStep.interrupt])
      = ((([⟨QueryState.RUNNING, ""⟩] : List StatusResponse).map
            fun _ => [PollEvent.statusCall, PollEvent.sleep, PollEvent.tick]).flatten
          ++ [PollEvent.cancelRequest],
         WaitOutcome.processExit 0) :=
  interrupt_single_cancel_exit [⟨QueryState.RUNNING, ""⟩] (by decide)

/-- Claim C4, counterexample: the claim says each non-terminal poll
ticks the progress bar strictly before sleeping, but the code runs
`time.sleep(ask_status_sec)` first and `progress.tick()` after: in the
trace of `[QUEUED, SUCCEEDED]` a sleep occurs before any tick. -/
theorem tick_before_sleep_cx :
    firstSleepAfterTick
      (wait_query_complete [PollStep.status ⟨QueryState.QUEUED, ""⟩,
        PollStep.status ⟨QueryState.SUCCEEDED, ""⟩]).1 = false := rfl

/-- Claim C4 (amended): every iteration of the poll loop that observes
a non-terminal state (`QUEUED` or `RUNNING`) emits exactly one
status call, one sleep and one progress tick, in that order — the tick
immediately follows the sleep rather than preceding it. -/
theorem tick_follows_sleep (reason : String) (rest : List PollStep) :
    wait_query_complete (PollStep.status ⟨QueryState.QUEUED, reason⟩ :: rest)
      = (PollEvent.statusCall :: PollEvent.sleep :: PollEvent.tick ::
          (wait_query_complete rest).1, (wait_query_complete rest).2)
    ∧ wait_query_complete (PollStep.status ⟨QueryState.RUNNING, reason⟩ :: rest)
      = (PollEvent.statusCall :: PollEvent.sleep :: PollEvent.tick ::
          (wait_query_complete rest).1, (wait_query_complete rest).2) :=
  ⟨rfl, rfl⟩

/-- Claim C5, counterexample: `removesuffix('/')` strips at most one
trailing slash from the base, so with a doubled trailing slash the join
keeps the extra slash — the result is `"s3://bucket/x//y"`, not the
claimed once-separated `"s3://bucket/x/y"`. -/
theorem resolve_repeated_slash_cx :
    (((Path.ofString "s3://bucket/x//").resolve "y").as_str = "s3://bucket/x/y") = False :=
  eq_false (by decide)

/-- Claim C5 (amended): rendering a resolved path strips exactly one
trailing slash from the base and one leading slash from the relative
name, and the join inserts exactly one separator: with at most one such
slash on either side, `"s3://bucket/x/"` resolved with `"y"` renders as
`"s3://bucket/x/y"` in all four slash variants; repeated slashes beyond
the first are preserved, not collapsed. -/
theorem resolve_single_slash_join :
    ((Path.ofString "s3://bucket/x/").resolve "y").as_str = "s3://bucket/x/y"
    ∧ ((Path.ofString "s3://bucket/x").resolve "y").as_str = "s3://bucket/x/y"
    ∧ ((Path.ofString "s3://bucket/x/").resolve "/y").as_str = "s3://bucket/x/y"
    ∧ ((Path.ofString "s3://bucket/x").resolve "/y").as_str = "s3://bucket/x/y" :=
  ⟨rfl, rfl, rfl, rfl⟩

/-- Claim C6 (confirmed): `infuse` on the template
`"SELECT * FROM $\x7bt\x7d WHERE u = $\x7bu\x7d AND k IN ($\x7bks\x7d) LIMIT $\x7bn\x7d"`
with `t` the raw `Expr "tbl"`, `u` the string `"bob"`, `ks` the list
`["a", "b"]` and `n` the integer `5` produces
`"SELECT * FROM tbl WHERE u = \x27bob\x27 AND k IN (\x27a\x27,\x27b\x27) LIMIT 5"`:
strings are single-quoted, lists become comma-joined single-quoted
items, other values are stringified and `Expr` content passes through
unquoted. -/
theorem infuse_example :
    infuse "SELECT * FROM $\x7bt\x7d WHERE u = $\x7bu\x7d AND k IN ($\x7bks\x7d) LIMIT $\x7bn\x7d"
      [("t", SqlValue.expr "tbl"), ("u", SqlValue.str "bob"),
       ("ks", SqlValue.list ["a", "b"]), ("n", SqlValue.int_ 5)]
      = "SELECT * FROM tbl WHERE u = \x27bob\x27 AND k IN (\x27a\x27,\x27b\x27) LIMIT 5" := by
  decide

/-- Claim C7 (confirmed): whenever at least one listed object fails to
decode, `read_orc` (with a progress bar, as every caller passes one)
fails with the decode error and returns no table at all, in sequential
mode and in any valid parallel mode alike — partial results are never
returned. -/
theorem read_orc_decode_failure (objs : List OrcObject) (n : Int) (cpu : Nat)
    (hmem : OrcObject.malformed ∈ objs)
    (hn : n = 1 ∨ n = -1 ∨ 1 < n) (hcpu : 1 ≤ cpu) :
    read_orc objs n cpu true = .error .decodeError := by
  rw [read_orc_valid_par objs n cpu hn hcpu (List.ne_nil_of_mem hmem)]
  unfold parFetch
  rw [parCollect_malformed objs hmem]

/-- Witness for `read_orc_decode_failure` at a listing of one valid and
one malformed object, in sequential mode. -/
theorem read_orc_decode_failure_witness :
    read_orc [OrcObject.valid ⟨["c"], [["1"]]⟩, OrcObject.malformed] 1 4 true
      = .error .decodeError :=
  read_orc_decode_failure [OrcObject.valid ⟨["c"], [["1"]]⟩, OrcObject.malformed] 1 4
    (by decide) (by decide) (by decide)

/-- Claim C8, counterexample: for the empty object listing the fetch
result is not independent of the concurrency setting — sequential mode
raises from `concat_tables` (the generator is truthy) while parallel
mode returns the empty table. -/
theorem read_orc_empty_concurrency_cx :
    (read_orc ([] : List OrcObject) 1 4 true = read_orc ([] : List OrcObject) 2 4 true) = False :=
  eq_false (fun h => by
    rw [show read_orc ([] : List OrcObject) 1 4 true = .error .concatEmpty from rfl,
      show read_orc ([] : List OrcObject) 2 4 true = .ok ⟨[], []⟩ from rfl] at h
    exact Except.noConfusion h)

/-- Claim C8 (amended): for every NON-EMPTY fixed set of result objects
and every pair of valid concurrency settings (1, -1, or any count above
1), `read_orc` with a progress bar produces identical outcomes — the
same merged table (same schema, same rows in the same order, since
`pool.map_async` preserves listing order) or the same error.  For the
empty set the modes disagree, as the counterexample shows. -/
theorem read_orc_concurrency_independent (objs : List OrcObject) (n m : Int) (cpu : Nat)
    (hobjs : objs ≠ []) (hn : n = 1 ∨ n = -1 ∨ 1 < n) (hm : m = 1 ∨ m = -1 ∨ 1 < m)
    (hcpu : 1 ≤ cpu) :
    read_orc objs n cpu true = read_orc objs m cpu true := by
  rw [read_orc_valid_par objs n cpu hn hcpu hobjs,
    read_orc_valid_par objs m cpu hm hcpu hobjs]

/-- Witness for `read_orc_concurrency_independent`: one two-object
listing fetched with `n_jobs = 1` and with `n_jobs = -1`. -/
theorem read_orc_concurrency_independent_witness :
    read_orc [OrcObject.valid ⟨["c"], [["1"]]⟩, OrcObject.valid ⟨["c"], [["2"]]⟩] 1 4 true
      = read_orc [OrcObject.valid ⟨["c"], [["1"]]⟩, OrcObject.valid ⟨["c"], [["2"]]⟩] (-1) 4 true :=
  read_orc_concurrency_independent
    [OrcObject.valid ⟨["c"], [["1"]]⟩, OrcObject.valid ⟨["c"], [["2"]]⟩] 1 (-1) 4
    (by decide) (by decide) (by decide) (by decide)

/-- Claim C9 (confirmed): sequential mode requires a progress reporter —
with the `None` default, the first `progress.tick()` after a successful
decode raises `AttributeError` — whereas the parallel branch only
touches `progress` behind the `while progress and ...` guard, so its
result never depends on the progress bar and a concrete fetch completes
without one. -/
theorem read_orc_progress_requirement :
    (∀ (t : Fragment) (objs : List OrcObject) (cpu : Nat),
        read_orc (OrcObject.valid t :: objs) 1 cpu false = .error .attributeError)
    ∧ (∀ (objs : List OrcObject) (n : Int) (cpu : Nat), n ≠ 1 →
        read_orc objs n cpu false = read_orc objs n cpu true)
    ∧ read_orc [OrcObject.valid ⟨["c"], [["1"]]⟩] 2 4 false = .ok ⟨["c"], [["1"]]⟩ := by
  refine ⟨fun t objs cpu => rfl, fun objs n cpu hn => ?_, rfl⟩
  simp [read_orc, hn]

/-- Witness for `read_orc_progress_requirement` (its middle conjunct
carries the hypothesis `n ≠ 1`): parallel fetch of an empty listing
behaves identically with and without a progress bar. -/
theorem read_orc_progress_requirement_witness :
    read_orc ([] : List OrcObject) 2 4 false = read_orc ([] : List OrcObject) 2 4 true :=
  read_orc_progress_requirement.2.1 [] 2 4 (by decide)

/-- The `s3://` scheme variant: matching starts at position 0 and the
groups are extracted from the remainder. -/
lemma s3Search_s3_scheme (r : List Char) :
    s3Search ('s' :: '3' :: ':' :: '/' :: '/' :: r) = some (parseAfterScheme r) := rfl

/-- The `s3a://` scheme variant: matching starts at position 0 and the
groups are extracted from the remainder. -/
lemma s3Search_s3a_scheme (r : List Char) :
    s3Search ('s' :: '3' :: 'a' :: ':' :: '/' :: '/' :: r) = some (parseAfterScheme r) := rfl

/-- Parsing a location that is `"s3://"` followed by any tail extracts
the groups from the tail alone. -/
lemma ofString_s3 (t : String) :
    S3Path.ofString ("s3://" ++ t)
      = some ⟨"s3://" ++ t, String.mk (parseAfterScheme t.data).1,
          String.mk (parseAfterScheme t.data).2⟩ := by
  unfold S3Path.ofString
  rw [show ("s3://" ++ t).data = 's' :: '3' :: ':' :: '/' :: '/' :: t.data from rfl,
    s3Search_s3_scheme]

/-- Parsing a location that is `"s3a://"` followed by any tail extracts
the groups from the tail alone. -/
lemma ofString_s3a (t : String) :
    S3Path.ofString ("s3a://" ++ t)
      = some ⟨"s3a://" ++ t, String.mk (parseAfterScheme t.data).1,
          String.mk (parseAfterScheme t.data).2⟩ := by
  unfold S3Path.ofString
  rw [show ("s3a://" ++ t).data = 's' :: '3' :: 'a' :: ':' :: '/' :: '/' :: t.data from rfl,
    s3Search_s3a_scheme]

/-- Claim C10 (confirmed): `S3Path.__eq__` is determined solely by the
extracted bucket and prefix groups, never by the raw location string;
consequently the two accepted scheme variants of one location compare
equal (for every tail, hence for every bucket `b` and prefix `p` in
`s3://b/p` versus `s3a://b/p`); and an `S3Path` never equals a value of
any other type. -/
theorem s3path_eq_by_bucket_prefix :
    (∀ p q : S3Path,
        S3Path.eq p (PyObj.s3path q) = true ↔ (p.bucket = q.bucket ∧ p.prefix_ = q.prefix_))
    ∧ (∀ (t : String) (p q : S3Path),
        S3Path.ofString ("s3://" ++ t) = some p →
        S3Path.ofString ("s3a://" ++ t) = some q →
        S3Path.eq p (PyObj.s3path q) = true)
    ∧ (∀ (p : S3Path) (q : Path) (s : String) (k : Int),
        S3Path.eq p (PyObj.path q) = false ∧ S3Path.eq p (PyObj.str s) = false
          ∧ S3Path.eq p (PyObj.int_ k) = false) := by
  refine ⟨?_, ?_, fun p q s k => ⟨rfl, rfl, rfl⟩⟩
  · intro p q
    simp [S3Path.eq, Bool.and_eq_true, beq_iff_eq]
  · intro t p q hp hq
    rw [ofString_s3 t] at hp
    rw [ofString_s3a t] at hq
    cases hp
    cases hq
    simp [S3Path.eq]

/-- Witness for `s3path_eq_by_bucket_prefix` (its middle conjunct
carries hypotheses): the parsed `s3://b/p` equals the parsed
`s3a://b/p`. -/
theorem s3path_eq_by_bucket_prefix_witness :
    S3Path.eq ⟨"s3://b/p", "b", "p"⟩ (PyObj.s3path ⟨"s3a://b/p", "b", "p"⟩) = true :=
  s3path_eq_by_bucket_prefix.2.1 "b/p" ⟨"s3://b/p", "b", "p"⟩ ⟨"s3a://b/p", "b", "p"⟩
    (by decide) (by decide)

end Pyllas
